import Mathlib

/-!
Verification development for the furniture recommendation backend
(`src/backend/main.py`).

The backend is a FastAPI service with three handlers — `recommend_products`
(POST /recommend/), `get_analytics` (GET /analytics/) and `health_check`
(GET /health) — plus a per-product helper `generate_creative_description`.
The external collaborators (sentence-transformers embedder, Pinecone index,
Gemini text model) are modelled as oracles supplied to the handlers: an
`Env` of pure functions describing what each external call would return.
The four module-level service globals (`embedding_model`, `pinecone_index`,
`gemini_model`, `dataset`) become an `AppState` of `Option`s, mirroring the
`is None` checks in the source.  External calls made by a handler are
recorded in an explicit trace (`List ExtCall`) so that statements such as
"no embedding call is performed" can be expressed.

Numbers that are Python floats in the source (prices, similarity scores)
are modelled as `Rat`; no claim depends on float rounding.  The
`price_stats` block of the analytics handler (min/max/mean/median/std of a
float column, `std` involving a square root) is floating-point numerics of
the pandas library and is not modelled; no claim refers to it.
-/

namespace FurnitureRec

/-- The fastapi HTTPException as raised by the handlers: a status code and
a detail message. -/
structure HTTPException where
  status_code : Nat
  detail : String
deriving DecidableEq

/-- The metadata dictionary stored with each Pinecone vector, as the source
reads it: every key is accessed with `metadata.get(key, default)`, so every
field may be absent. -/
structure Metadata where
  uniq_id : Option String
  title : Option String
  price : Option Rat
  brand : Option String
  images : Option String
deriving DecidableEq

/-- One entry of `search_results.matches`: metadata plus similarity score. -/
structure SearchMatch where
  metadata : Metadata
  score : Rat
deriving DecidableEq

/-- Pydantic model `Product` (response items of POST /recommend/). -/
structure Product where
  uniq_id : String
  title : String
  price : Rat
  brand : String
  images : Option String
  creative_description : String
  similarity_score : Rat
deriving DecidableEq

/-- Pydantic model `RecommendationRequest`: a query string and an
optional integer `top_k` defaulting to 8. -/
structure RecommendationRequest where
  query : String
  top_k : Option Int := some 8
deriving DecidableEq

/-- Pydantic model `RecommendationResponse`. -/
structure RecommendationResponse where
  query : String
  products : List Product
  count : Nat
deriving DecidableEq

/-- The result of one `gemini_model.invoke(prompt)` call: the call either
raises (caught by the handler's `except`) or returns a message whose
`content` is a string. -/
inductive CallResult where
  | failure
  | success (content : String)
deriving DecidableEq

/-- One row of the analytics dataframe: a possibly-null brand, a
possibly-null category value, and a price. -/
structure DataRow where
  brand : Option String
  categories : Option String
  price : Rat
deriving DecidableEq

/-- The pandas dataframe loaded at startup: its rows, and whether the
optional `categories` column exists (`'categories' in dataset.columns`). -/
structure Dataset where
  rows : List DataRow
  hasCategories : Bool
deriving DecidableEq

/-- The module-level service globals after startup, one `Option` per
`is None` check in the source.  The three model handles carry no data
relevant to the handlers' control flow, so they are `Option Unit`; the
dataset's contents matter to the analytics handler, so it is kept. -/
structure AppState where
  embedding_model : Option Unit
  pinecone_index : Option Unit
  gemini_model : Option Unit
  dataset : Option Dataset

/-- Oracles for the external services: what `embedding_model.encode`,
`pinecone_index.query` and `gemini_model.invoke` would return on a given
input.  Modelling them as total functions expresses a run in which the
external calls themselves do not raise. -/
structure Env where
  encode : String → List Rat
  query_index : List Rat → Option Int → List SearchMatch
  gen : String → String → Rat → CallResult

/-- One external call made by the recommendation handler, recorded in the
trace: the embedding call, the Pinecone query, or one invocation of the
descriptor generator with the arguments the handler passed it. -/
inductive ExtCall where
  | embed (query : String)
  | search (vector : List Rat) (top_k : Option Int)
  | generate (title : String) (brand : String) (price : Rat)
deriving DecidableEq

/-- Python's `str.strip()`: remove leading and trailing whitespace
characters.  A string is a sequence of code points, so this is a list
computation on `String.data`. -/
def strip (s : String) : String :=
  ⟨((s.1.dropWhile Char.isWhitespace).reverse.dropWhile Char.isWhitespace).reverse⟩

/-- Embedding of generate_creative_description (main.py lines 265-316).
`gemini_model` is the global handle; `call` is what the external
`invoke` would do if reached.  The `price` argument only feeds the prompt
text, so it does not influence the returned string.  Python's slice
`description[:297]` takes the first 297 code points, i.e. `List.take 297`
on the character data. -/
def generate_creative_description (gemini_model : Option Unit)
    (call : CallResult) (title brand : String) (price : Rat) : String :=
  if gemini_model.isNone then
    "Discover the " ++ title ++ " by " ++ brand ++
      ", expertly crafted to enhance your living space with style and functionality."
  else
    match call with
    | .failure =>
        "Elevate your space with the " ++ title ++ " from " ++ brand ++
          ". Quality craftsmanship meets modern design at an exceptional value."
    | .success content =>
        let description := strip content
        if description.length > 300 then ⟨description.1.take 297⟩ ++ "..." else description

/-- The body of the per-match loop (main.py lines 229-250): the generator
is called with `metadata.get('title', '')`, `metadata.get('brand', '')`,
`metadata.get('price', 0)`, while the `Product` record uses
`metadata.get('title', 'Untitled Product')`, `metadata.get('brand',
'Unknown')`, `float(metadata.get('price', 0))`. -/
def mkProduct (gemini_model : Option Unit) (env : Env) (m : SearchMatch) : Product :=
  let creative_desc := generate_creative_description gemini_model
    (env.gen (m.metadata.title.getD "") (m.metadata.brand.getD "") (m.metadata.price.getD 0))
    (m.metadata.title.getD "") (m.metadata.brand.getD "") (m.metadata.price.getD 0)
  { uniq_id := m.metadata.uniq_id.getD ""
    title := m.metadata.title.getD "Untitled Product"
    price := m.metadata.price.getD 0
    brand := m.metadata.brand.getD "Unknown"
    images := m.metadata.images
    creative_description := creative_desc
    similarity_score := m.score }

/-- The trace entry for one descriptor-generator invocation, with exactly
the arguments the handler passes (main.py lines 233-237). -/
def genCall (m : SearchMatch) : ExtCall :=
  .generate (m.metadata.title.getD "") (m.metadata.brand.getD "") (m.metadata.price.getD 0)

/-- Embedding of recommend_products (main.py lines 174-262), returning the handler's
result together with the trace of external calls it performed.  The
source's final `except` (a 500 on an unexpected exception) is unreachable
here because the oracles are total; no claim concerns that path. -/
def recommend_products (st : AppState) (env : Env)
    (request : RecommendationRequest) :
    Except HTTPException RecommendationResponse × List ExtCall :=
  if st.embedding_model.isNone then
    (.error ⟨503, "Embedding model not initialized. Check server logs."⟩, [])
  else if st.pinecone_index.isNone then
    (.error ⟨503, "Pinecone connection not established. Check PINECONE_API_KEY."⟩, [])
  else
    let query_embedding := env.encode request.query
    let search_results := env.query_index query_embedding request.top_k
    let calls := [ExtCall.embed request.query,
      ExtCall.search query_embedding request.top_k] ++ search_results.map genCall
    if search_results.isEmpty then
      (.ok ⟨request.query, [], 0⟩, calls)
    else
      let products := search_results.map (mkProduct st.gemini_model env)
      (.ok ⟨request.query, products, products.length⟩, calls)

/-- Insert a (value, count) pair into a list sorted by descending count,
after any earlier pair with the same count (a stable descending sort step;
the spec leaves tie order uncontracted). -/
def insertDesc (p : String × Nat) : List (String × Nat) → List (String × Nat)
  | [] => [p]
  | q :: rest => if q.2 < p.2 then p :: q :: rest else q :: insertDesc p rest

/-- Sort (value, count) pairs by descending count. -/
def sortCountDesc (l : List (String × Nat)) : List (String × Nat) :=
  l.foldr insertDesc []

/-- pandas `Series.value_counts()` over an optional-valued column: count
the occurrences of each distinct non-null value and order the (value,
count) pairs by descending count (nulls are dropped, as pandas does). -/
def value_counts (xs : List (Option String)) : List (String × Nat) :=
  let vals := xs.filterMap id
  sortCountDesc (vals.dedup.map (fun v => (v, vals.count v)))

/-- The claim-relevant part of `AnalyticsResponse`: `price_stats`
(float numerics of pandas, including a square root for `std`) is not
modelled and no claim refers to it. -/
structure AnalyticsResponse where
  total_products : Nat
  top_brands : List (String × Nat)
  top_categories : List (String × Nat)
deriving DecidableEq

/-- Embedding of get_analytics (main.py lines 319-368): 503 when the dataset is not
loaded; otherwise `value_counts().head(10)` for brands, the same for
categories if the `categories` column exists (else an empty mapping), and
the row count. -/
def get_analytics (dataset : Option Dataset) :
    Except HTTPException AnalyticsResponse :=
  match dataset with
  | none => .error ⟨503, "Dataset not loaded. Check server logs."⟩
  | some ds =>
      .ok { total_products := ds.rows.length
            top_brands := (value_counts (ds.rows.map DataRow.brand)).take 10
            top_categories :=
              if ds.hasCategories then
                (value_counts (ds.rows.map DataRow.categories)).take 10
              else [] }

/-- The payload of GET /health (main.py lines 373-386). -/
structure HealthResponse where
  status : String
  embedding_model : Bool
  pinecone : Bool
  gemini_ai : Bool
  dataset : Bool
deriving DecidableEq

/-- Embedding of health_check (main.py lines 373-386): a constant overall
status and one boolean per service global. -/
def health_check (st : AppState) : HealthResponse :=
  { status := "healthy"
    embedding_model := st.embedding_model.isSome
    pinecone := st.pinecone_index.isSome
    gemini_ai := st.gemini_model.isSome
    dataset := st.dataset.isSome }

/-! Concrete inputs used by counterexamples and witnesses. -/

/-- A state in which all three model handles initialized. -/
def stReady : AppState := ⟨some (), some (), some (), none⟩

/-- A state in which nothing initialized. -/
def stDown : AppState := ⟨none, none, none, none⟩

/-- An oracle whose index returns a single match with an empty metadata
dictionary. -/
def envOneEmptyMatch : Env :=
  { encode := fun _ => []
    query_index := fun _ _ => [⟨⟨none, none, none, none, none⟩, 0⟩]
    gen := fun _ _ _ => .success "A fine chair." }

/-- An oracle whose index returns no matches. -/
def envNoMatches : Env :=
  { encode := fun _ => []
    query_index := fun _ _ => []
    gen := fun _ _ _ => .failure }

/-- A 301-character title, long enough to push the fallback template past
300 characters. -/
def longTitle : String := String.mk (List.replicate 301 'a')

/-- A one-row dataset with a brand and no categories column. -/
def dsOneRow : Dataset := ⟨[⟨some "Acme", none, 10⟩], false⟩

/-! Helper lemmas. -/

/-- The "never initialized" fallback string has 94 characters besides the
title and the brand. -/
theorem length_gen_none (call : CallResult) (t b : String) (p : Rat) :
    (generate_creative_description none call t b p).length = 94 + t.length + b.length := by
  have h : generate_creative_description none call t b p =
      "Discover the " ++ t ++ " by " ++ b ++
        ", expertly crafted to enhance your living space with style and functionality." := rfl
  rw [h]
  simp only [String.length_append]
  rw [show ("Discover the " : String).length = 13 from by decide,
    show (" by " : String).length = 4 from by decide,
    show (", expertly crafted to enhance your living space with style and functionality." : String).length = 77 from by decide]
  omega

/-- The "call failed" fallback string has 102 characters besides the title
and the brand. -/
theorem length_gen_failure (t b : String) (p : Rat) :
    (generate_creative_description (some ()) .failure t b p).length = 102 + t.length + b.length := by
  have h : generate_creative_description (some ()) .failure t b p =
      "Elevate your space with the " ++ t ++ " from " ++ b ++
        ". Quality craftsmanship meets modern design at an exceptional value." := rfl
  rw [h]
  simp only [String.length_append]
  rw [show ("Elevate your space with the " : String).length = 28 from by decide,
    show (" from " : String).length = 6 from by decide,
    show (". Quality craftsmanship meets modern design at an exceptional value." : String).length = 68 from by decide]
  omega

/-- Membership in an `insertDesc` insertion. -/
theorem mem_insertDesc (a p : String × Nat) (l : List (String × Nat)) :
    a ∈ insertDesc p l ↔ a = p ∨ a ∈ l := by
  induction l with
  | nil => simp [insertDesc]
  | cons q rest ih =>
      by_cases h : q.2 < p.2
      · simp [insertDesc, h]
      · simp [insertDesc, h, ih]
        tauto

/-- Sorting by descending count does not change the members. -/
theorem mem_sortCountDesc (a : String × Nat) (l : List (String × Nat)) :
    a ∈ sortCountDesc l ↔ a ∈ l := by
  induction l with
  | nil => simp [sortCountDesc]
  | cons p rest ih =>
      simp only [sortCountDesc, List.foldr_cons, List.mem_cons]
      rw [mem_insertDesc]
      exact or_congr Iff.rfl ih

/-- Every pair listed by `value_counts` pairs a value with the number of
its occurrences among the non-null entries. -/
theorem value_counts_spec (xs : List (Option String)) (p : String × Nat)
    (hp : p ∈ value_counts xs) : p.2 = (xs.filterMap id).count p.1 := by
  unfold value_counts at hp
  rw [mem_sortCountDesc] at hp
  obtain ⟨v, _, hv⟩ := List.mem_map.mp hp
  cases hv
  rfl

/-! Claim theorems. -/

/-- C9: the GET /health endpoint's overall `status` field is the constant
string "healthy" in every startup state, and the four per-service booleans
are exactly the readiness of the four service globals. -/
theorem health_status_constant (st : AppState) :
    (health_check st).status = "healthy" ∧
    (health_check st).embedding_model = st.embedding_model.isSome ∧
    (health_check st).pinecone = st.pinecone_index.isSome ∧
    (health_check st).gemini_ai = st.gemini_model.isSome ∧
    (health_check st).dataset = st.dataset.isSome :=
  ⟨rfl, rfl, rfl, rfl, rfl⟩

/-- C6: with the text model never initialized the generator returns the
"Discover the {title} by {brand}, ..." template; with the model
initialized but the call failing it returns the differently worded
"Elevate your space ..." template; and the two strings differ for every
title/brand pair (their lengths differ by 8). -/
theorem fallback_messages_distinct (call : CallResult) (t b : String) (p : Rat) :
    generate_creative_description none call t b p =
      "Discover the " ++ t ++ " by " ++ b ++
        ", expertly crafted to enhance your living space with style and functionality." ∧
    generate_creative_description (some ()) .failure t b p =
      "Elevate your space with the " ++ t ++ " from " ++ b ++
        ". Quality craftsmanship meets modern design at an exceptional value." ∧
    generate_creative_description none call t b p ≠
      generate_creative_description (some ()) .failure t b p := by
  refine ⟨rfl, rfl, fun h => ?_⟩
  have hl := congrArg String.length h
  rw [length_gen_none call t b p, length_gen_failure t b p] at hl
  omega

/-- C2 (amended): in generative mode the result never exceeds 300
characters, is non-empty whenever the stripped model output is non-empty,
and equals the first 297 characters of the stripped output followed by
"..." when the stripped output exceeds 300 characters; both fallback
strings are non-empty.  (The original claim fails in two places: a model
output that strips to the empty string is returned as the empty string,
and the fallback templates exceed 300 characters for long titles/brands.) -/
theorem description_bounds (call : CallResult) (t b : String) (p : Rat) (c : String) :
    (generate_creative_description (some ()) (.success c) t b p).length ≤ 300 ∧
    (strip c ≠ "" → generate_creative_description (some ()) (.success c) t b p ≠ "") ∧
    (300 < (strip c).length →
      generate_creative_description (some ()) (.success c) t b p =
        String.mk ((strip c).1.take 297) ++ "...") ∧
    generate_creative_description none call t b p ≠ "" ∧
    generate_creative_description (some ()) .failure t b p ≠ "" := by
  have hgen : generate_creative_description (some ()) (.success c) t b p =
      if (strip c).length > 300 then String.mk ((strip c).1.take 297) ++ "..." else strip c := rfl
  have htklen : (String.mk ((strip c).1.take 297) ++ "...").length = min 297 (strip c).length + 3 := by
    rw [String.length_append, show ("..." : String).length = 3 from by decide]
    show ((strip c).1.take 297).length + 3 = _
    rw [List.length_take]
    rfl
  refine ⟨?_, ?_, ?_, ?_, ?_⟩
  · rw [hgen]
    by_cases h : (strip c).length > 300
    · rw [if_pos h, htklen]
      omega
    · rw [if_neg h]
      omega
  · intro hne heq
    rw [hgen] at heq
    by_cases h : (strip c).length > 300
    · rw [if_pos h] at heq
      have := congrArg String.length heq
      rw [htklen] at this
      have h0 : ("" : String).length = 0 := rfl
      omega
    · rw [if_neg h] at heq
      exact hne heq
  · intro h
    rw [hgen, if_pos h]
  · intro heq
    have := congrArg String.length heq
    rw [length_gen_none call t b p] at this
    have h0 : ("" : String).length = 0 := rfl
    omega
  · intro heq
    have := congrArg String.length heq
    rw [length_gen_failure t b p] at this
    have h0 : ("" : String).length = 0 := rfl
    omega

set_option maxRecDepth 8192 in
/-- C2 witness: at a stripped model output of 301 characters the theorem's
truncation branch applies and its other hypotheses are discharged. -/
theorem description_bounds_witness :
    (strip (String.mk (List.replicate 301 'a')) ≠ "") ∧
    (300 < (strip (String.mk (List.replicate 301 'a'))).length) ∧
    generate_creative_description (some ()) (.success (String.mk (List.replicate 301 'a'))) "Oak Chair" "Acme" 0 =
      String.mk ((strip (String.mk (List.replicate 301 'a'))).1.take 297) ++ "..." := by
  refine ⟨by decide, by decide, ?_⟩
  exact (description_bounds .failure "Oak Chair" "Acme" 0
    (String.mk (List.replicate 301 'a'))).2.2.1 (by decide)

/-- C2 counterexample: a model output of a single blank strips to the
empty string and is returned as the empty string (violating the 1-character
lower bound), and the never-initialized fallback for a 301-character title
is 399 characters long (violating the 300-character upper bound). -/
theorem description_bounds_counterexample :
    generate_creative_description (some ()) (.success " ") "Oak Chair" "Acme" 0 = "" ∧
    300 < (generate_creative_description none (.success "x") longTitle "Acme" 0).length := by
  constructor
  · rfl
  · rw [length_gen_none (.success "x") longTitle "Acme" 0]
    rw [show longTitle.length = 301 from List.length_replicate 301 'a']
    omega

/-- C4: with embedder and search client ready, a search that returns zero
matches yields a successful response carrying the original query, an empty
product list and count 0 — not an error. -/
theorem empty_matches_ok (st : AppState) (env : Env) (req : RecommendationRequest)
    (hemb : st.embedding_model = some ()) (hpc : st.pinecone_index = some ())
    (hms : env.query_index (env.encode req.query) req.top_k = []) :
    (recommend_products st env req).1 = .ok ⟨req.query, [], 0⟩ := by
  simp [recommend_products, hemb, hpc, hms]

/-- C4 witness: a concrete run with a match-less index. -/
theorem empty_matches_ok_witness :
    stReady.embedding_model = some () ∧ stReady.pinecone_index = some () ∧
    envNoMatches.query_index (envNoMatches.encode "sofa") (some 8) = [] ∧
    (recommend_products stReady envNoMatches ⟨"sofa", some 8⟩).1 = .ok ⟨"sofa", [], 0⟩ :=
  ⟨rfl, rfl, rfl, empty_matches_ok stReady envNoMatches ⟨"sofa", some 8⟩ rfl rfl rfl⟩

/-- C5: when the search client is not ready the handler returns a 503 (one
of the two 503 messages, since the embedder is checked first) and performs
no external call at all; when the embedder is not ready the handler
returns the 503 naming the embedding model, again with no external call. -/
theorem unavailable_rejected (st : AppState) (env : Env) (req : RecommendationRequest) :
    (st.pinecone_index = none →
      ((recommend_products st env req).1 =
          .error ⟨503, "Embedding model not initialized. Check server logs."⟩ ∨
        (recommend_products st env req).1 =
          .error ⟨503, "Pinecone connection not established. Check PINECONE_API_KEY."⟩) ∧
      (recommend_products st env req).2 = []) ∧
    (st.embedding_model = none →
      (recommend_products st env req).1 =
        .error ⟨503, "Embedding model not initialized. Check server logs."⟩ ∧
      (recommend_products st env req).2 = []) := by
  constructor
  · intro hpc
    cases hemb : st.embedding_model with
    | none =>
        exact ⟨Or.inl (by simp [recommend_products, hemb]),
          by simp [recommend_products, hemb]⟩
    | some u =>
        cases u
        exact ⟨Or.inr (by simp [recommend_products, hemb, hpc]),
          by simp [recommend_products, hemb, hpc]⟩
  · intro hemb
    exact ⟨by simp [recommend_products, hemb], by simp [recommend_products, hemb]⟩

/-- C5 witness: a concrete run with nothing initialized. -/
theorem unavailable_rejected_witness :
    stDown.pinecone_index = none ∧ stDown.embedding_model = none ∧
    (recommend_products stDown envNoMatches ⟨"sofa", some 8⟩).1 =
      .error ⟨503, "Embedding model not initialized. Check server logs."⟩ ∧
    (recommend_products stDown envNoMatches ⟨"sofa", some 8⟩).2 = [] :=
  ⟨rfl, rfl,
    ((unavailable_rejected stDown envNoMatches ⟨"sofa", some 8⟩).2 rfl).1,
    ((unavailable_rejected stDown envNoMatches ⟨"sofa", some 8⟩).2 rfl).2⟩

/-- C3: every response the handler assembles has `count` equal to the
length of `products`, both equal to the number of matches the search
client returned, the products are the matches' records in the order the
search client returned them, and whenever the search client returned at
most `k` matches for requested `top_k = k` the count is at most `k`. -/
theorem response_count_order (st : AppState) (env : Env) (req : RecommendationRequest)
    (resp : RecommendationResponse)
    (hemb : st.embedding_model = some ()) (hpc : st.pinecone_index = some ())
    (hok : (recommend_products st env req).1 = .ok resp) :
    resp.count = resp.products.length ∧
    resp.count = (env.query_index (env.encode req.query) req.top_k).length ∧
    resp.products =
      (env.query_index (env.encode req.query) req.top_k).map (mkProduct st.gemini_model env) ∧
    (∀ k : Int, req.top_k = some k →
      ((env.query_index (env.encode req.query) req.top_k).length : Int) ≤ k →
      (resp.count : Int) ≤ k) := by
  cases hms : env.query_index (env.encode req.query) req.top_k with
  | nil =>
      simp only [recommend_products, hemb, hpc, hms, Option.isNone_some, Bool.false_eq_true,
        if_false, List.isEmpty_nil, if_true, List.map_nil, List.length_nil] at hok ⊢
      rw [Except.ok.injEq] at hok
      subst hok
      refine ⟨rfl, rfl, rfl, ?_⟩
      intro k _ hlen
      exact_mod_cast hlen
  | cons m ms =>
      simp only [recommend_products, hemb, hpc, hms, Option.isNone_some, Bool.false_eq_true,
        if_false, List.isEmpty_cons, List.map_cons] at hok ⊢
      rw [Except.ok.injEq] at hok
      subst hok
      refine ⟨rfl, by simp, by simp, ?_⟩
      intro k _ hlen
      simpa using hlen

/-- C3 witness: a concrete run, with the count bound instantiated at
`k = 8`. -/
theorem response_count_order_witness :
    stReady.embedding_model = some () ∧ stReady.pinecone_index = some () ∧
    (recommend_products stReady envNoMatches ⟨"chairs", some 8⟩).1 = .ok ⟨"chairs", [], 0⟩ ∧
    (⟨"chairs", [], 0⟩ : RecommendationResponse).count =
      (envNoMatches.query_index (envNoMatches.encode "chairs") (some 8)).length ∧
    ((⟨"chairs", [], 0⟩ : RecommendationResponse).count : Int) ≤ 8 := by
  refine ⟨rfl, rfl, rfl, ?_, ?_⟩
  · exact (response_count_order stReady envNoMatches ⟨"chairs", some 8⟩
      ⟨"chairs", [], 0⟩ rfl rfl rfl).2.1
  · exact (response_count_order stReady envNoMatches ⟨"chairs", some 8⟩
      ⟨"chairs", [], 0⟩ rfl rfl rfl).2.2.2 8 rfl (by decide)

/-- C1 (amended): for each match, in order, the handler invokes the
descriptor generator with the match's metadata defaulting a missing title
to `""`, a missing brand to `""` and a missing price to `0` (not to
"Untitled Product"/"Unknown" as the original claim states), while the
assembled Product record defaults a missing title to "Untitled Product", a
missing brand to "Unknown" and a missing price to `0`. -/
theorem generator_invocation_defaults (st : AppState) (env : Env)
    (req : RecommendationRequest)
    (hemb : st.embedding_model = some ()) (hpc : st.pinecone_index = some ()) :
    (recommend_products st env req).2 =
      [ExtCall.embed req.query, ExtCall.search (env.encode req.query) req.top_k] ++
        (env.query_index (env.encode req.query) req.top_k).map genCall ∧
    (∀ m : SearchMatch,
      genCall m = .generate (m.metadata.title.getD "") (m.metadata.brand.getD "")
        (m.metadata.price.getD 0) ∧
      (mkProduct st.gemini_model env m).creative_description =
        generate_creative_description st.gemini_model
          (env.gen (m.metadata.title.getD "") (m.metadata.brand.getD "")
            (m.metadata.price.getD 0))
          (m.metadata.title.getD "") (m.metadata.brand.getD "") (m.metadata.price.getD 0) ∧
      (mkProduct st.gemini_model env m).title = m.metadata.title.getD "Untitled Product" ∧
      (mkProduct st.gemini_model env m).brand = m.metadata.brand.getD "Unknown" ∧
      (mkProduct st.gemini_model env m).price = m.metadata.price.getD 0) := by
  constructor
  · simp only [recommend_products, hemb, hpc, Option.isNone_some, Bool.false_eq_true, if_false]
    split <;> rfl
  · intro m
    exact ⟨rfl, rfl, rfl, rfl, rfl⟩

/-- C1 witness: a concrete ready state and index. -/
theorem generator_invocation_defaults_witness :
    stReady.embedding_model = some () ∧ stReady.pinecone_index = some () ∧
    (recommend_products stReady envOneEmptyMatch ⟨"oak table", some 8⟩).2 =
      [ExtCall.embed "oak table",
        ExtCall.search (envOneEmptyMatch.encode "oak table") (some 8)] ++
        (envOneEmptyMatch.query_index (envOneEmptyMatch.encode "oak table") (some 8)).map genCall :=
  ⟨rfl, rfl,
    (generator_invocation_defaults stReady envOneEmptyMatch ⟨"oak table", some 8⟩ rfl rfl).1⟩

/-- C1 counterexample: for a match with no title/brand/price metadata, the
trace records a generator invocation with title `""`, brand `""` and price
`0`; no invocation with title "Untitled Product" and brand "Unknown" is
performed, contradicting the claimed defaults. -/
theorem generator_invocation_defaults_counterexample :
    (recommend_products stReady envOneEmptyMatch ⟨"oak table", some 8⟩).2 =
      [ExtCall.embed "oak table", ExtCall.search [] (some 8), ExtCall.generate "" "" 0] ∧
    ExtCall.generate "Untitled Product" "Unknown" 0 ∉
      (recommend_products stReady envOneEmptyMatch ⟨"oak table", some 8⟩).2 := by
  constructor
  · rfl
  · decide

/-- C10: with embedder and search client ready the handler rejects
nothing: for every request — empty query and non-positive `top_k`
included — no error is returned, the query string is passed to the
embedder unchanged and `top_k` is passed to the search client unchanged. -/
theorem no_request_validation (st : AppState) (env : Env) (req : RecommendationRequest)
    (hemb : st.embedding_model = some ()) (hpc : st.pinecone_index = some ()) :
    (∀ e : HTTPException, (recommend_products st env req).1 ≠ .error e) ∧
    (recommend_products st env req).2.take 2 =
      [ExtCall.embed req.query, ExtCall.search (env.encode req.query) req.top_k] := by
  constructor
  · intro e
    simp only [recommend_products, hemb, hpc, Option.isNone_some, Bool.false_eq_true, if_false]
    split <;> simp
  · simp only [recommend_products, hemb, hpc, Option.isNone_some, Bool.false_eq_true, if_false]
    split <;> rfl

/-- C10 witness: an empty query with `top_k = -3` is embedded and searched
unchanged, and not rejected. -/
theorem no_request_validation_witness :
    stReady.embedding_model = some () ∧ stReady.pinecone_index = some () ∧
    (recommend_products stReady envOneEmptyMatch ⟨"", some (-3)⟩).1 ≠
      .error ⟨503, "Embedding model not initialized. Check server logs."⟩ ∧
    (recommend_products stReady envOneEmptyMatch ⟨"", some (-3)⟩).2.take 2 =
      [ExtCall.embed "", ExtCall.search (envOneEmptyMatch.encode "") (some (-3))] :=
  ⟨rfl, rfl,
    (no_request_validation stReady envOneEmptyMatch ⟨"", some (-3)⟩ rfl rfl).1
      ⟨503, "Embedding model not initialized. Check server logs."⟩,
    (no_request_validation stReady envOneEmptyMatch ⟨"", some (-3)⟩ rfl rfl).2⟩

/-- C7: for every loaded dataset the analytics response lists at most 10
top brands, each listed pair carries the occurrence count of that brand
among the rows (which cannot exceed the row count), `total_products` is
the number of rows, and a dataset without a categories column produces an
empty category mapping. -/
theorem analytics_invariants (ds : Dataset) (r : AnalyticsResponse)
    (hok : get_analytics (some ds) = .ok r) :
    r.top_brands.length ≤ 10 ∧
    (∀ p ∈ r.top_brands,
      p.2 = ((ds.rows.map DataRow.brand).filterMap id).count p.1 ∧
      p.2 ≤ r.total_products) ∧
    r.total_products = ds.rows.length ∧
    (ds.hasCategories = false → r.top_categories = []) := by
  rw [get_analytics, Except.ok.injEq] at hok
  subst hok
  refine ⟨List.length_take_le 10 _, ?_, rfl, ?_⟩
  · intro p hp
    have hp' : p ∈ value_counts (ds.rows.map DataRow.brand) := List.take_subset 10 _ hp
    refine ⟨value_counts_spec _ p hp', ?_⟩
    rw [value_counts_spec _ p hp']
    calc ((ds.rows.map DataRow.brand).filterMap id).count p.1
        ≤ ((ds.rows.map DataRow.brand).filterMap id).length :=
          List.count_le_length _ _
      _ ≤ (ds.rows.map DataRow.brand).length := List.length_filterMap_le _ _
      _ = ds.rows.length := List.length_map _ _
  · intro hcat
    simp [hcat]

/-- C7 witness: a one-row dataset without a categories column. -/
theorem analytics_invariants_witness :
    get_analytics (some dsOneRow) = .ok ⟨1, [("Acme", 1)], []⟩ ∧
    (⟨1, [("Acme", 1)], []⟩ : AnalyticsResponse).top_brands.length ≤ 10 ∧
    (⟨1, [("Acme", 1)], []⟩ : AnalyticsResponse).total_products = dsOneRow.rows.length ∧
    (⟨1, [("Acme", 1)], []⟩ : AnalyticsResponse).top_categories = [] := by
  have h := analytics_invariants dsOneRow ⟨1, [("Acme", 1)], []⟩ rfl
  exact ⟨rfl, h.1, h.2.2.1, h.2.2.2 rfl⟩

end FurnitureRec
